import Mathlib

/-!
Shallow embedding of the order/cart/payment core of the premium-store
backend (`store/models.py`, `store/serializers.py`, `store/views.py`).

Money values are rationals (the source computes with Python `Decimal`,
which is exact decimal arithmetic); JSON extra-data payloads are
association lists from field names to string values, with `Option`
marking a JSON `null`; database rows are Lean structures and the
relevant slice of the database is an explicit `StoreState` record.
Outbound HTTP calls to the payment gateway are modelled by passing the
gateway's response (or a transport failure) as an explicit argument.
-/

namespace PremiumStore

/-- A JSON object payload attached to a cart/order line item:
field name to value, first binding wins (Python dict semantics). -/
abbrev ExtraData := List (String × String)

/-- Embeds `ServiceField` (`models.py`): a per-service declared input field. -/
structure ServiceField where
  field_name : String
  field_type : String
  is_required : Bool
  label : String
  deriving DecidableEq, Repr

/-- Embeds `Discount` (`models.py`). -/
structure Discount where
  discount_percent : ℚ
  name : String
  deriving DecidableEq, Repr

/-- Embeds `Service` (`models.py`): list price, optional discount and the
declared fields (`required_fields` is the related name of `ServiceField`). -/
structure Service where
  name : String
  price : ℚ
  discounts : Option Discount
  required_fields : List ServiceField
  deriving DecidableEq, Repr

/-- Embeds `Service.get_discounted_price` (`models.py` lines 63-67). -/
def Service.get_discounted_price (s : Service) : ℚ :=
  match s.discounts with
  | some d => s.price * (1 - d.discount_percent / 100)
  | none => s.price

/-- Modelled from the spec wording of effective price: list price times
`(1 - discount_percent/100)` when a discount is attached, else list price.
Kept separate from `Service.get_discounted_price` so that theorems can
relate the code's pricing to the spec's formula. -/
def effective_price (s : Service) : ℚ :=
  match s.discounts with
  | some d => s.price * (1 - d.discount_percent / 100)
  | none => s.price

/-- Embeds `CartItem` (`models.py`): `extra_data` is a nullable JSON field
(`null=True`), so a stored `null` is `none`. -/
structure CartItem where
  service : Service
  quantity : ℕ
  extra_data : Option ExtraData
  deriving DecidableEq, Repr

/-- Embeds `Cart` (`models.py`): the cart's related items. -/
structure Cart where
  items : List CartItem
  deriving DecidableEq, Repr

/-- Order status codes (`models.py`): `u` unpaid, `p` paid, `c` canceled. -/
inductive OrderStatus where
  | unpaid
  | paid
  | canceled
  deriving DecidableEq, Repr

/-- Embeds `OrderItem` (`models.py`): frozen price snapshot; the code always
writes a JSON object (never `null`) into `extra_data`. -/
structure OrderItem where
  service : Service
  price : ℚ
  quantity : ℕ
  extra_data : ExtraData
  deriving DecidableEq, Repr

/-- Embeds `Order` (`models.py`): customer is an opaque id; both payment
fields are nullable (`null=True`). Line items are inlined as a list. -/
structure Order where
  customer : ℕ
  status : OrderStatus
  payment_authority : Option String
  payment_ref_id : Option String
  items : List OrderItem
  deriving DecidableEq, Repr

/-- Carts are addressed by an opaque identifier (a UUID in the source). -/
abbrev CartId := ℕ

/-- The slice of the relational store the order flow touches. -/
structure StoreState where
  carts : List (CartId × Cart)
  orders : List Order
  deriving DecidableEq, Repr

/-! ### Dynamic field validation (`serializers.py`) -/

/-- Python `str.title()` on ASCII text: a cased character that follows a
non-alphabetic character is uppercased, one following an alphabetic
character is lowercased. -/
def pyTitleAux : Bool → List Char → List Char
  | _, [] => []
  | prevAlpha, c :: cs =>
    let c' := if c.isAlpha then (if prevAlpha then c.toLower else c.toUpper) else c
    c' :: pyTitleAux c.isAlpha cs

/-- Python `str.title()`. -/
def pyTitle (s : String) : String := ⟨pyTitleAux false s.data⟩

/-- Python `.replace('_', ' ')`: the pattern is a single character, so the
replacement is a character-wise map. -/
def replaceUnderscores (s : String) : String :=
  ⟨s.data.map (fun c => if c = '_' then ' ' else c)⟩

/-- Python `str.strip()`: drop whitespace from both ends. -/
def pyStrip (s : String) : String :=
  ⟨((s.data.dropWhile Char.isWhitespace).reverse.dropWhile Char.isWhitespace).reverse⟩

/-- The label shown for a missing field:
`field.label or field.field_name.replace('_', ' ').title()`
(an empty label is falsy in Python, so the humanized name is used). -/
def displayLabel (f : ServiceField) : String :=
  if f.label == "" then pyTitle (replaceUnderscores f.field_name) else f.label

/-- Python `not value or str(value).strip() == ''` on an optional string:
a missing value, the empty string and whitespace-only strings are blank. -/
def valueBlank : Option String → Bool
  | none => true
  | some v => v == "" || pyStrip v == ""

/-- The field names declared for a service:
`allowed_fields = {field.field_name for field in service.required_fields.all()}`. -/
def allowedFields (service : Service) : List String :=
  service.required_fields.map (fun f => f.field_name)

/-- `cleaned_extra_data = {k: v for k, v in raw_extra_data.items() if k in allowed_fields}`:
keys not declared for the service are silently dropped. -/
def cleanExtraData (service : Service) (ed : ExtraData) : ExtraData :=
  ed.filter (fun kv => (allowedFields service).contains kv.1)

/-- The loop over `service.required_fields.filter(is_required=True)` collecting
the display labels of fields whose looked-up value is blank
(`serializers.py`, identical in all three validators). -/
def missingRequiredLabels (service : Service) (ed : ExtraData) : List String :=
  (service.required_fields.filter (fun f => f.is_required)).filterMap (fun f =>
    if valueBlank (ed.lookup f.field_name) then some (displayLabel f) else none)

/-- Error message of the cart-item validators (`serializers.py` lines 137-139
and 196-198). -/
def requiredFieldsErrorMsg (service : Service) (missing : List String) : String :=
  "The required fields for the service «" ++ service.name ++ "» are not filled: " ++
    String.intercalate ", " missing

/-- Embeds `AddCartItemSerializer.validate` (`serializers.py` lines 117-142).
The `extra_data` argument is `none` for an explicit JSON `null` payload
(the serializer declares `default=dict`, so an absent key arrives as `{}`). -/
def addCartItemValidate (service : Service) (extra_data : Option ExtraData) :
    Except String ExtraData :=
  match extra_data with
  | none => .error "Please enter the required information."
  | some raw_extra_data =>
    let cleaned_extra_data := cleanExtraData service raw_extra_data
    let missing := missingRequiredLabels service cleaned_extra_data
    if missing.isEmpty then .ok cleaned_extra_data
    else .error (requiredFieldsErrorMsg service missing)

/-- Embeds `UpdateCartItemSerializer.validate` (`serializers.py` lines 176-201).
The outer `Option` is key presence in the PATCH payload, the inner one is
JSON `null`; `data.get('extra_data') is None` is true both when the key is
absent and when it is explicit `null`, so both fall into the error branch. -/
def updateCartItemValidate (item : CartItem) (param : Option (Option ExtraData)) :
    Except String ExtraData :=
  match param with
  | some (some raw_extra_data) =>
    let service := item.service
    let cleaned_extra_data := cleanExtraData service raw_extra_data
    let missing := missingRequiredLabels service cleaned_extra_data
    if missing.isEmpty then .ok cleaned_extra_data
    else .error (requiredFieldsErrorMsg service missing)
  | _ => .error "Please enter the required information."

/-- Per-item check of `OrderCreateSerializer.validate` (`serializers.py`
lines 291-305): works on the stored `extra_data` with `null` coerced to `{}`
(`item.extra_data or {}`), without discarding undeclared keys, and produces
one aggregated line per failing item. -/
def itemMissingLine (item : CartItem) : Option String :=
  let service := item.service
  let extra_data := item.extra_data.getD []
  let missing := missingRequiredLabels service extra_data
  if missing.isEmpty then none
  else some ("Service «" ++ service.name ++ "»: " ++ String.intercalate ", " missing)

/-- The composite error message of `OrderCreateSerializer.validate`
(`serializers.py` lines 307-310). -/
def orderValidateErrorMsg (missing_errors : List String) : String :=
  "The following mandatory fields in the shopping cart are not filled:\n" ++
    String.intercalate "\n" missing_errors ++
    "\n\nPlease return to the shopping cart and enter the necessary information."

/-- Embeds `OrderCreateSerializer.validate` (`serializers.py` lines 278-312):
cart lookup, emptiness check, then the aggregated required-field check. -/
def orderCreateValidate (st : StoreState) (cart_id : CartId) : Except String Cart :=
  match st.carts.lookup cart_id with
  | none => .error "There is no shopping cart with this ID. It may have expired."
  | some cart =>
    if cart.items.isEmpty then
      .error "The shopping cart is empty. Please add a service first."
    else
      let missing_errors := cart.items.filterMap itemMissingLine
      if missing_errors.isEmpty then .ok cart
      else .error (orderValidateErrorMsg missing_errors)

/-- Embeds `OrderCreateSerializer.save` (`serializers.py` lines 314-341):
creates the unpaid order, one order item per cart item with the discounted
price frozen and `extra_data=item.extra_data or {}`, then deletes the cart. -/
def orderCreateSave (st : StoreState) (cart_id : CartId) (customer : ℕ) :
    StoreState × Order :=
  let cart_items := ((st.carts.lookup cart_id).map Cart.items).getD []
  let order_items := cart_items.map (fun item =>
    { service := item.service
      quantity := item.quantity
      price := item.service.get_discounted_price
      extra_data := item.extra_data.getD [] : OrderItem })
  let order : Order :=
    { customer := customer, status := .unpaid
      payment_authority := none, payment_ref_id := none, items := order_items }
  ({ carts := st.carts.filter (fun c => c.1 != cart_id)
     orders := st.orders ++ [order] }, order)

/-- The whole materialization endpoint: `is_valid(raise_exception=True)`
followed by `save()` inside one transaction; a validation error leaves the
store untouched. -/
def materialize (st : StoreState) (cart_id : CartId) (customer : ℕ) :
    StoreState × Except String Order :=
  match orderCreateValidate st cart_id with
  | .error e => (st, .error e)
  | .ok _ =>
    let r := orderCreateSave st cart_id customer
    (r.1, .ok r.2)

/-! ### Payment endpoints (`views.py`) -/

/-- Python `int()` on an exact decimal: truncation toward zero (the
denominator of a `Rat` is positive, so `Int.tdiv num den` truncates the
value toward zero). -/
def truncToZero (q : ℚ) : ℤ :=
  q.num.tdiv q.den

/-- `total_price = sum(item.quantity * item.price for item in order.items.all())`
(`views.py` lines 220 and 261). -/
def orderTotal (o : Order) : ℚ :=
  (o.items.map (fun item => (item.quantity : ℚ) * item.price)).sum

/-- The `data` object of a ZarinPal payment-request response body: the code
reads `result['data'].get('code')` and `result['data']['authority']`. -/
structure PayData where
  code : Option ℤ
  authority : Option String
  deriving DecidableEq, Repr

/-- Outcome of the outbound `requests.post` to the gateway during `pay`:
either a transport failure (network error or non-JSON body, both raising in
the `try` block) or a parsed JSON body, holding the optional `data` object
and the optional `errors.message` string
(`result.get('errors', {}).get('message', ...)`). -/
inductive PayGwResult where
  | transportError (msg : String)
  | json (data : Option PayData) (errorsMessage : Option String)
  deriving DecidableEq, Repr

/-- HTTP-level outcome of the `pay` endpoint. -/
inductive PayOutcome where
  | conflict (msg : String)
  | serverError (msg : String)
  | ok (payment_url : String)
  | badRequest (msg : String)
  deriving DecidableEq, Repr

/-- Embeds `OrderViewSet.pay` (`views.py` lines 214-245). Returns the
updated order, the amount of the session request sent to the gateway
(`none` when no gateway request was made) and the HTTP outcome. The
`start_pay_url` argument is `settings.ZARINPAL_START_PAY_URL`. A `code == 100`
body missing the `authority` key raises `KeyError` in the view, surfacing as
an unhandled server error with no order mutation. -/
def pay (start_pay_url : String) (o : Order) (gw : PayGwResult) :
    Order × Option ℤ × PayOutcome :=
  if o.status ≠ OrderStatus.unpaid then
    (o, none, .conflict "The order has already been paid for or cancelled.")
  else
    let amount := truncToZero (orderTotal o * 10)
    match gw with
    | .transportError e =>
      (o, some amount, .serverError ("Error connecting to ZarinPal" ++ e))
    | .json data errorsMessage =>
      match data with
      | some d =>
        if d.code = some 100 then
          match d.authority with
          | some authority =>
            ({ o with payment_authority := some authority }, some amount,
              .ok (start_pay_url ++ authority))
          | none => (o, some amount, .serverError "KeyError: authority")
        else
          (o, some amount, .badRequest (errorsMessage.getD "Unspecified error"))
      | none =>
        (o, some amount, .badRequest (errorsMessage.getD "Unspecified error"))

/-- The `data` object of a ZarinPal verify response body: the code reads
`result['data'].get('code')` and `result['data'].get('ref_id')`. -/
structure VerifyData where
  code : Option ℤ
  ref_id : Option String
  deriving DecidableEq, Repr

/-- Outcome of the outbound verify `requests.post` during `callback`. -/
inductive VerifyGwResult where
  | transportError (msg : String)
  | json (data : Option VerifyData) (errorsMessage : Option String)
  deriving DecidableEq, Repr

/-- HTTP-level outcome of the `callback` endpoint. -/
inductive CallbackOutcome where
  | badRequest (msg : String)
  | serverError (msg : String)
  | ok (ref_id : Option String)
  deriving DecidableEq, Repr

/-- Embeds `OrderViewSet.callback` (`views.py` lines 247-288). The query
parameters `Authority` and `Status` are `none` when absent. Returns the
updated order, the amount of the verify request sent to the gateway
(`none` when the mismatch branch cancelled the order before any gateway
call) and the HTTP outcome. -/
def callback (o : Order) (authority status_param : Option String)
    (gw : VerifyGwResult) : Order × Option ℤ × CallbackOutcome :=
  if status_param ≠ some "OK" ∨ o.payment_authority ≠ authority then
    ({ o with status := .canceled }, none,
      .badRequest "Payment unsuccessful or canceled")
  else
    let amount := truncToZero (orderTotal o * 10)
    match gw with
    | .transportError e =>
      (o, some amount, .serverError ("Error in payment confirmation: " ++ e))
    | .json data errorsMessage =>
      match data with
      | some d =>
        if d.code = some 100 ∨ d.code = some 101 then
          ({ o with status := .paid, payment_ref_id := d.ref_id }, some amount,
            .ok d.ref_id)
        else
          ({ o with status := .canceled }, some amount,
            .badRequest (errorsMessage.getD "Unknown error"))
      | none =>
        ({ o with status := .canceled }, some amount,
          .badRequest (errorsMessage.getD "Unknown error"))

/-! ### Concrete fixtures for witnesses and counterexamples -/

/-- A declared required field with no label set. -/
def fieldEmail : ServiceField :=
  { field_name := "email", field_type := "email", is_required := true, label := "" }

/-- A service with a 10% discount and one required field. -/
def svcConsulting : Service :=
  { name := "Consulting", price := 1000
    discounts := some { discount_percent := 10, name := "ten" }
    required_fields := [fieldEmail] }

/-- A service with no discount and no declared fields. -/
def svcBasic : Service :=
  { name := "Basic", price := 900, discounts := none, required_fields := [] }

/-- A fresh unpaid order of total 900 with a stored payment authority. -/
def order900 : Order :=
  { customer := 7, status := .unpaid
    payment_authority := some "A000", payment_ref_id := none
    items := [{ service := svcBasic, price := 900, quantity := 1, extra_data := [] }] }

/-- The same order after a cancellation. -/
def order900Canceled : Order :=
  { order900 with status := .canceled }

/-- A cart whose single item stores a JSON `null` extra-data. -/
def cartNullExtra : Cart :=
  { items := [{ service := svcBasic, quantity := 1, extra_data := none }] }

/-- A two-item cart passing validation. -/
def cartTwoItems : Cart :=
  { items :=
      [{ service := svcConsulting, quantity := 2, extra_data := [("email", "a@b.com")] },
       { service := svcBasic, quantity := 1, extra_data := some [] }] }

/-- A cart whose item misses its required field. -/
def cartMissingField : Cart :=
  { items := [{ service := svcConsulting, quantity := 1, extra_data := some [] }] }

/-- An empty cart. -/
def cartEmpty : Cart := { items := [] }

/-- A store with the fixture carts and no orders. -/
def exStore : StoreState :=
  { carts := [(1, cartNullExtra), (2, cartTwoItems), (3, cartMissingField), (4, cartEmpty)]
    orders := [] }

/-- An unpaid order on which `pay` has never succeeded: no stored authority. -/
def orderFresh : Order :=
  { customer := 7, status := .unpaid
    payment_authority := none, payment_ref_id := none
    items := [{ service := svcBasic, price := 900, quantity := 1, extra_data := [] }] }

/-! ### Helper lemmas -/

/-- Deleting a cart row by id makes its id unresolvable. -/
theorem lookup_filter_ne_self (l : List (CartId × Cart)) (cid : CartId) :
    (l.filter (fun c => c.1 != cid)).lookup cid = none := by
  induction l with
  | nil => rfl
  | cons hd tl ih =>
    by_cases h : hd.1 = cid
    · simp [List.filter_cons, h, ih]
    · have hb : (hd.1 != cid) = true := by simp [h]
      have hb2 : (cid == hd.1) = false := beq_eq_false_iff_ne.mpr (fun hc => h hc.symm)
      simp [List.filter_cons, hb, List.lookup, hb2, ih]

/-- Key filtering keeps every binding whose key the filter set contains, so
lookups of contained keys are unchanged. -/
theorem lookup_filter_contains (ed : ExtraData) (keys : List String) (k : String)
    (hk : keys.contains k = true) :
    (ed.filter (fun kv => keys.contains kv.1)).lookup k = ed.lookup k := by
  induction ed with
  | nil => rfl
  | cons hd tl ih =>
    cases hcont : keys.contains hd.1 with
    | false =>
      have hne : (k == hd.1) = false := by
        refine beq_eq_false_iff_ne.mpr (fun hc => ?_)
        rw [hc] at hk
        rw [hk] at hcont
        cases hcont
      rw [List.filter_cons, hcont]
      simp only [Bool.false_eq_true, if_false]
      rw [ih]
      conv_rhs => rw [List.lookup]
      rw [hne]
    | true =>
      rw [List.filter_cons, hcont, if_pos rfl]
      cases hbk : (k == hd.1) with
      | true =>
        rw [List.lookup, List.lookup, hbk]
      | false =>
        rw [List.lookup, List.lookup, hbk]
        exact ih

/-- Key cleaning never changes the looked-up value of a declared field. -/
theorem lookup_cleanExtraData (service : Service) (ed : ExtraData) (k : String)
    (hk : (allowedFields service).contains k = true) :
    (cleanExtraData service ed).lookup k = ed.lookup k :=
  lookup_filter_contains ed (allowedFields service) k hk

/-- A list of items with integer prices has an integer quantity-weighted sum. -/
theorem sum_int_valued (l : List OrderItem)
    (h : ∀ item ∈ l, ∃ n : ℤ, item.price = (n : ℚ)) :
    ∃ m : ℤ, (l.map (fun item => (item.quantity : ℚ) * item.price)).sum = (m : ℚ) := by
  induction l with
  | nil => exact ⟨0, by simp⟩
  | cons hd tl ih =>
    obtain ⟨n, hn⟩ := h hd (List.mem_cons_self hd tl)
    obtain ⟨m, hm⟩ := ih (fun item hmem => h item (List.mem_cons_of_mem hd hmem))
    exact ⟨(hd.quantity : ℤ) * n + m, by push_cast [List.map_cons, List.sum_cons, hn, hm]; ring⟩

/-- `truncToZero` is the identity on integer-valued rationals. -/
theorem truncToZero_intCast (n : ℤ) : truncToZero ((n : ℚ)) = n := by
  unfold truncToZero
  rw [Rat.num_intCast, Rat.den_intCast]
  simp

/-! ### Claim theorems: payment callback and pay endpoint -/

/-- C1 counterexample: an unpaid order whose callback passes the status-flag
and authority checks and then hits a transport error during gateway verify is
NOT transitioned to canceled — the handler returns a server error and leaves
the status unpaid, contradicting the claim that a transport failure cancels
the order like an explicit rejection. -/
theorem callback_transport_error_not_canceled :
    (callback order900 (some "A000") (some "OK")
      (.transportError "timeout")).1.status = OrderStatus.unpaid ∧
    OrderStatus.unpaid ≠ OrderStatus.canceled :=
  ⟨by with_unfolding_all rfl, by decide⟩

/-- C1 amended: for an order passing the callback's status-flag and authority
checks, a transport error during the verify request returns a 500-class
server error wrapping the cause and leaves the order completely unchanged
(an unpaid order stays unpaid); it is not treated like a gateway rejection. -/
theorem callback_transport_error_unchanged (o : Order) (auth : Option String)
    (e : String) (hmatch : o.payment_authority = auth) :
    callback o auth (some "OK") (.transportError e) =
      (o, some (truncToZero (orderTotal o * 10)),
        .serverError ("Error in payment confirmation: " ++ e)) := by
  unfold callback
  rw [if_neg]
  push_neg
  exact ⟨rfl, hmatch⟩

/-- Witness for the amended C1 theorem at a concrete unpaid order. -/
theorem callback_transport_error_unchanged_witness :
    callback order900 (some "A000") (some "OK") (.transportError "timeout") =
      (order900, some 9000,
        .serverError "Error in payment confirmation: timeout") :=
  (callback_transport_error_unchanged order900 (some "A000") "timeout" rfl).trans
    (by with_unfolding_all rfl)

/-- C2: the callback never checks whether the order is already terminal, so a
replayed callback with the stored authority and a success flag against an
already-canceled order re-runs verification and flips the order to paid —
the code violates the idempotency requirement the spec states (and itself
flags as a latent bug). -/
theorem callback_replay_flips_canceled_to_paid :
    order900Canceled.status = OrderStatus.canceled ∧
    (callback order900Canceled (some "A000") (some "OK")
      (.json (some { code := some 100, ref_id := some "R1" }) none)).1.status =
      OrderStatus.paid :=
  ⟨rfl, by with_unfolding_all rfl⟩

/-- C6: for an unpaid order, a callback with success status flag and matching
authority followed by a gateway verify response with code 100 or code 101
transitions the order to paid and persists the gateway reference id. -/
theorem callback_verify_success_pays (o : Order) (auth : Option String)
    (d : VerifyData) (em : Option String)
    (hunpaid : o.status = OrderStatus.unpaid)
    (hmatch : o.payment_authority = auth)
    (hcode : d.code = some 100 ∨ d.code = some 101) :
    callback o auth (some "OK") (.json (some d) em) =
      ({ o with status := .paid, payment_ref_id := d.ref_id },
        some (truncToZero (orderTotal o * 10)), .ok d.ref_id) ∧
    ({ o with status := OrderStatus.paid, payment_ref_id := d.ref_id } : Order).status ≠ o.status := by
  constructor
  · unfold callback
    rw [if_neg]
    · dsimp only
      rw [if_pos hcode]
    · push_neg
      exact ⟨rfl, hmatch⟩
  · intro hc
    rw [hunpaid] at hc
    cases hc

/-- Witness for C6 at a concrete unpaid order and a code-100 verify body. -/
theorem callback_verify_success_pays_witness :
    callback order900 (some "A000") (some "OK")
      (.json (some { code := some 100, ref_id := some "R1" }) none) =
      ({ order900 with status := .paid, payment_ref_id := some "R1" },
        some (truncToZero (orderTotal order900 * 10)), .ok (some "R1")) ∧
    ({ order900 with status := OrderStatus.paid, payment_ref_id := some "R1" } : Order).status ≠ order900.status :=
  callback_verify_success_pays order900 (some "A000")
    { code := some 100, ref_id := some "R1" } none rfl rfl (Or.inl rfl)

/-- C7: a callback whose status flag is not the success value or whose
authority differs from the one stored on the order cancels the order, makes
no gateway verify request, returns a failure response, and in particular
never yields a paid order. -/
theorem callback_mismatch_cancels (o : Order) (auth status_param : Option String)
    (gw : VerifyGwResult)
    (h : status_param ≠ some "OK" ∨ o.payment_authority ≠ auth) :
    callback o auth status_param gw =
      ({ o with status := .canceled }, none,
        .badRequest "Payment unsuccessful or canceled") ∧
    (callback o auth status_param gw).1.status ≠ OrderStatus.paid := by
  have he : callback o auth status_param gw =
      ({ o with status := .canceled }, none,
        .badRequest "Payment unsuccessful or canceled") := by
    unfold callback
    rw [if_pos h]
  refine ⟨he, ?_⟩
  rw [he]
  intro hc
  cases hc

/-- Witness for C7 at a concrete order and a mismatching authority. -/
theorem callback_mismatch_cancels_witness :
    callback order900 (some "B999") (some "OK") (.transportError "t") =
      ({ order900 with status := .canceled }, none,
        .badRequest "Payment unsuccessful or canceled") ∧
    (callback order900 (some "B999") (some "OK") (.transportError "t")).1.status ≠
      OrderStatus.paid :=
  callback_mismatch_cancels order900 (some "B999") (some "OK") (.transportError "t")
    (Or.inr (by decide))

/-- C9: calling pay on an order whose status is paid or canceled returns a
400-class conflict, leaves the order record untouched, and sends no request
to the gateway (the result does not depend on the gateway at all). -/
theorem pay_terminal_conflict (spu : String) (o : Order) (gw gw' : PayGwResult)
    (h : o.status = OrderStatus.paid ∨ o.status = OrderStatus.canceled) :
    pay spu o gw =
      (o, none, .conflict "The order has already been paid for or cancelled.") ∧
    pay spu o gw = pay spu o gw' := by
  have hne : o.status ≠ OrderStatus.unpaid := by
    rcases h with h | h <;> rw [h] <;> intro hc <;> cases hc
  have he : ∀ g : PayGwResult, pay spu o g =
      (o, none, .conflict "The order has already been paid for or cancelled.") := by
    intro g
    unfold pay
    rw [if_pos hne]
  exact ⟨he gw, (he gw).trans (he gw').symm⟩

/-- Witness for C9 at a concrete canceled order and two different gateway
behaviours. -/
theorem pay_terminal_conflict_witness :
    pay "https://pay/" order900Canceled (.json (some { code := some 100, authority := some "X" }) none) =
      (order900Canceled, none,
        .conflict "The order has already been paid for or cancelled.") ∧
    pay "https://pay/" order900Canceled (.json (some { code := some 100, authority := some "X" }) none) =
      pay "https://pay/" order900Canceled (.transportError "t") :=
  pay_terminal_conflict "https://pay/" order900Canceled
    (.json (some { code := some 100, authority := some "X" }) none)
    (.transportError "t") (Or.inr rfl)

/-- C10: when the stored payment authority is null and the callback carries no
Authority parameter but a success status flag, the authority check passes
(absent equals absent) and a gateway verify request is sent; in general the
mismatch-cancel branch (which contacts no gateway) is taken exactly when the
status flag is not the success value or the two authority values differ. -/
theorem callback_absent_authority_matches (o : Order) (gw gw' : VerifyGwResult)
    (auth status_param : Option String) (h : o.payment_authority = none) :
    (callback o none (some "OK") gw).2.1 = some (truncToZero (orderTotal o * 10)) ∧
    ((callback o auth status_param gw').2.1 = none ↔
      (status_param ≠ some "OK" ∨ o.payment_authority ≠ auth)) := by
  have hsome : ∀ (o' : Order) (a s : Option String) (g : VerifyGwResult),
      (¬ (s ≠ some "OK" ∨ o'.payment_authority ≠ a)) →
      (callback o' a s g).2.1 = some (truncToZero (orderTotal o' * 10)) := by
    intro o' a s g hc
    unfold callback
    rw [if_neg hc]
    rcases g with e | ⟨d, em⟩
    · rfl
    · rcases d with _ | d
      · rfl
      · dsimp only
        by_cases hcode : d.code = some 100 ∨ d.code = some 101
        · rw [if_pos hcode]
        · rw [if_neg hcode]
  constructor
  · refine hsome o none (some "OK") gw ?_
    push_neg
    exact ⟨rfl, h⟩
  · constructor
    · intro hnone
      by_contra hc
      rw [hsome o auth status_param gw' hc] at hnone
      cases hnone
    · intro hc
      unfold callback
      rw [if_pos hc]

/-- Witness for C10: a fresh order with no stored authority and a callback
with no Authority parameter reaches gateway verification; with some supplied
authority the mismatch branch is taken. -/
theorem callback_absent_authority_matches_witness :
    (callback orderFresh none (some "OK") (.json none none)).2.1 = some 9000 ∧
    ((callback orderFresh (some "X") (some "OK") (.transportError "t")).2.1 = none ↔
      ((some "OK" : Option String) ≠ some "OK" ∨ orderFresh.payment_authority ≠ some "X")) :=
  ⟨((callback_absent_authority_matches orderFresh (.json none none) (.transportError "t")
      (some "X") (some "OK") rfl).1).trans (by with_unfolding_all rfl),
   (callback_absent_authority_matches orderFresh (.json none none) (.transportError "t")
      (some "X") (some "OK") rfl).2⟩

/-- C8: for an unpaid order, pay computes the gateway amount as the exact
decimal order total (sum of quantity times frozen item price) times the
subunit factor 10 — exactly `order_total * 10` whenever the frozen prices
are integral, as the decimal(10,0) price column guarantees — and on a
gateway success response persists the returned authority, leaves the status
unpaid, and returns the redirect URL built from that authority. -/
theorem pay_amount_and_success (spu : String) (o : Order) (authority : String)
    (em : Option String)
    (hunpaid : o.status = OrderStatus.unpaid)
    (hint : ∀ item ∈ o.items, ∃ n : ℤ, item.price = (n : ℚ)) :
    pay spu o (.json (some { code := some 100, authority := some authority }) em) =
      ({ o with payment_authority := some authority },
        some (truncToZero (orderTotal o * 10)), .ok (spu ++ authority)) ∧
    ((truncToZero (orderTotal o * 10) : ℤ) : ℚ) = orderTotal o * 10 ∧
    ({ o with payment_authority := some authority } : Order).status = OrderStatus.unpaid := by
  obtain ⟨m, hm⟩ : ∃ m : ℤ, orderTotal o = (m : ℚ) := sum_int_valued o.items hint
  have h10 : orderTotal o * 10 = ((m * 10 : ℤ) : ℚ) := by push_cast [hm]; ring
  have htr : ((truncToZero (orderTotal o * 10) : ℤ) : ℚ) = orderTotal o * 10 := by
    rw [h10, truncToZero_intCast]
  refine ⟨?_, htr, hunpaid⟩
  unfold pay
  rw [if_neg (fun hc => hc hunpaid)]
  dsimp only
  rw [if_pos rfl]

/-- Witness for C8: the spec's own scenario — order total 900, amount 9000,
authority persisted, unpaid status kept, payment URL returned. -/
theorem pay_amount_and_success_witness :
    pay "https://pay/" order900
      (.json (some { code := some 100, authority := some "AUTH1" }) none) =
      ({ order900 with payment_authority := some "AUTH1" }, some 9000,
        .ok "https://pay/AUTH1") ∧
    ((truncToZero (orderTotal order900 * 10) : ℤ) : ℚ) = orderTotal order900 * 10 ∧
    ({ order900 with payment_authority := some "AUTH1" } : Order).status = OrderStatus.unpaid := by
  have t := pay_amount_and_success "https://pay/" order900 "AUTH1" none rfl
    (by
      intro item hmem
      cases List.mem_singleton.mp hmem
      exact ⟨900, by with_unfolding_all rfl⟩)
  exact ⟨t.1.trans (by with_unfolding_all rfl), t.2.1, t.2.2⟩

/-! ### Claim theorems: order materializer and validation -/

/-- C3 counterexample: a cart item whose stored extra-data is the JSON null
passes validation when its service declares no required fields, yet the
created order item carries the empty mapping — not a verbatim copy of the
null value that was on the cart item. -/
theorem materialize_null_extra_data_normalized :
    cartNullExtra.items.map CartItem.extra_data = [none] ∧
    (materialize exStore 1 7).2.toOption.map
      (fun o => o.items.map OrderItem.extra_data) = some [[]] ∧
    (some ([] : ExtraData) : Option ExtraData) ≠ none :=
  ⟨rfl, by with_unfolding_all rfl, by decide⟩

/-- C3 amended: materializing an existing, non-empty cart whose items all
pass the required-field check atomically creates one unpaid order owned by
the customer, with exactly one order item per cart item — carrying the cart
item's quantity, its extra-data copied verbatim except that a stored JSON
null is normalized to the empty mapping, and price equal to the service's
effective price (list price times one minus discount percent over 100 when a
discount is attached, else list price) at that instant — and deletes the
source cart together with its items. -/
theorem materialize_success (st : StoreState) (cid : CartId) (cust : ℕ)
    (cart : Cart)
    (hfind : st.carts.lookup cid = some cart)
    (hne : cart.items ≠ [])
    (hval : ∀ item ∈ cart.items,
      missingRequiredLabels item.service (item.extra_data.getD []) = []) :
    ∃ order : Order,
      materialize st cid cust =
        ({ carts := st.carts.filter (fun c => c.1 != cid),
           orders := st.orders ++ [order] }, .ok order) ∧
      order.status = OrderStatus.unpaid ∧
      order.customer = cust ∧
      order.payment_authority = none ∧
      order.items = cart.items.map (fun item =>
        { service := item.service
          quantity := item.quantity
          price := effective_price item.service
          extra_data := item.extra_data.getD [] }) ∧
      (st.carts.filter (fun c => c.1 != cid)).lookup cid = none := by
  have hval' : ∀ item ∈ cart.items, itemMissingLine item = none := by
    intro item hmem
    unfold itemMissingLine
    dsimp only
    rw [hval item hmem]
    rfl
  have hv : orderCreateValidate st cid = .ok cart := by
    unfold orderCreateValidate
    rw [hfind]
    dsimp only
    rw [if_neg (fun hc => hne (List.isEmpty_iff.mp hc))]
    rw [List.filterMap_eq_nil_iff.mpr hval']
    rfl
  have hm : materialize st cid cust =
      ((orderCreateSave st cid cust).1, .ok (orderCreateSave st cid cust).2) := by
    unfold materialize
    rw [hv]
  have hitems : (orderCreateSave st cid cust).2.items = cart.items.map (fun item =>
      ({ service := item.service
         quantity := item.quantity
         price := item.service.get_discounted_price
         extra_data := item.extra_data.getD [] } : OrderItem)) := by
    unfold orderCreateSave
    rw [hfind]
    rfl
  refine ⟨(orderCreateSave st cid cust).2, ?_, rfl, rfl, rfl, ?_, ?_⟩
  · exact hm
  · exact hitems
  · exact lookup_filter_ne_self st.carts cid

/-- Witness for the amended C3 theorem: the two-item fixture cart
materializes into an order with both prices frozen at the then-current
effective price and the cart gone. -/
theorem materialize_success_witness :
    ∃ order : Order,
      materialize exStore 2 7 =
        ({ carts := exStore.carts.filter (fun c => c.1 != 2),
           orders := exStore.orders ++ [order] }, .ok order) ∧
      order.status = OrderStatus.unpaid ∧
      order.customer = 7 ∧
      order.payment_authority = none ∧
      order.items = cartTwoItems.items.map (fun item =>
        { service := item.service
          quantity := item.quantity
          price := effective_price item.service
          extra_data := item.extra_data.getD [] }) ∧
      (exStore.carts.filter (fun c => c.1 != 2)).lookup 2 = none :=
  materialize_success exStore 2 7 cartTwoItems rfl (by decide)
    (by
      intro item hmem
      rw [show cartTwoItems.items =
        [{ service := svcConsulting, quantity := 2, extra_data := [("email", "a@b.com")] },
         { service := svcBasic, quantity := 1, extra_data := some [] }] from rfl] at hmem
      rcases hmem with _ | ⟨_, hmem⟩
      · with_unfolding_all rfl
      · cases List.mem_singleton.mp hmem
        with_unfolding_all rfl)

/-- C4: materialization fails before any mutation when the cart does not
exist, is empty, or has an item missing a required field: the store is
returned unchanged (no order row, cart intact) with the matching error, and
in the validation case the error is the composite message aggregating one
line per failing item (each line naming the service and the display labels
of its missing fields). -/
theorem materialize_failure_cases (st : StoreState) (cid : CartId) (cust : ℕ) :
    (st.carts.lookup cid = none →
      materialize st cid cust =
        (st, .error "There is no shopping cart with this ID. It may have expired.")) ∧
    (∀ cart, st.carts.lookup cid = some cart → cart.items = [] →
      materialize st cid cust =
        (st, .error "The shopping cart is empty. Please add a service first.")) ∧
    (∀ cart, st.carts.lookup cid = some cart →
      cart.items.filterMap itemMissingLine ≠ [] →
      materialize st cid cust =
        (st, .error (orderValidateErrorMsg (cart.items.filterMap itemMissingLine)))) := by
  refine ⟨?_, ?_, ?_⟩
  · intro hnone
    unfold materialize orderCreateValidate
    rw [hnone]
  · intro cart hfind hempty
    have hv : orderCreateValidate st cid =
        .error "The shopping cart is empty. Please add a service first." := by
      unfold orderCreateValidate
      rw [hfind]
      dsimp only
      rw [if_pos (by rw [hempty]; rfl)]
    unfold materialize
    rw [hv]
  · intro cart hfind hmiss
    have hv : orderCreateValidate st cid =
        .error (orderValidateErrorMsg (cart.items.filterMap itemMissingLine)) := by
      unfold orderCreateValidate
      rw [hfind]
      dsimp only
      rw [if_neg (fun hc => hmiss (by rw [List.isEmpty_iff.mp hc]; rfl))]
      rw [if_neg (fun hc => hmiss (List.isEmpty_iff.mp hc))]
    unfold materialize
    rw [hv]

/-- Witness for C4: a missing cart id, the empty fixture cart and the
fixture cart with a missing required field all fail with the store
unchanged; the last error is the aggregate message naming the service and
the humanized field label. -/
theorem materialize_failure_cases_witness :
    (materialize exStore 99 7 =
      (exStore, .error "There is no shopping cart with this ID. It may have expired.")) ∧
    (materialize exStore 4 7 =
      (exStore, .error "The shopping cart is empty. Please add a service first.")) ∧
    (materialize exStore 3 7 =
      (exStore, .error (orderValidateErrorMsg
        (cartMissingField.items.filterMap itemMissingLine)))) ∧
    orderValidateErrorMsg (cartMissingField.items.filterMap itemMissingLine) =
      orderValidateErrorMsg ["Service «Consulting»: Email"] :=
  ⟨(materialize_failure_cases exStore 99 7).1 rfl,
   (materialize_failure_cases exStore 4 7).2.1 cartEmpty rfl rfl,
   (materialize_failure_cases exStore 3 7).2.2 cartMissingField rfl
     (by with_unfolding_all decide),
   by with_unfolding_all rfl⟩

/-- C5 counterexample: for a service with no required fields, an explicit
null extra-data payload is rejected with the distinct message when adding a
cart item, yet order materialization accepts the very cart whose stored
extra-data is that null (it coerces null to an empty mapping and never runs
the null check): the three validation points are not the same function of
(service, extra-data). -/
theorem validation_divergence_on_null :
    addCartItemValidate svcBasic none =
      .error "Please enter the required information." ∧
    itemMissingLine { service := svcBasic, quantity := 1, extra_data := none } = none ∧
    orderCreateValidate exStore 1 = .ok cartNullExtra :=
  ⟨rfl, rfl, by with_unfolding_all rfl⟩

/-- C5 amended: adding and updating a cart item run the identical validation
(null rejection with the distinct message, undeclared-key cleaning, and the
required-field check naming display labels); order materialization skips the
null check (treating a stored null as the empty mapping) and the key
cleaning, but since cleaning never changes the value of a declared field all
three points agree on which required-field labels are missing for a given
service and extra-data mapping. -/
theorem validation_agreement (item : CartItem) (p : Option ExtraData)
    (service : Service) (ed : ExtraData) (it2 : CartItem) :
    updateCartItemValidate item (some p) = addCartItemValidate item.service p ∧
    missingRequiredLabels service (cleanExtraData service ed) =
      missingRequiredLabels service ed ∧
    (itemMissingLine it2 = none ↔
      missingRequiredLabels it2.service (it2.extra_data.getD []) = []) := by
  refine ⟨?_, ?_, ?_⟩
  · cases p with
    | none => rfl
    | some raw => rfl
  · unfold missingRequiredLabels
    apply List.filterMap_congr
    intro f hf
    have hf' : f ∈ service.required_fields := (List.mem_filter.mp hf).1
    have hmem : f.field_name ∈ allowedFields service :=
      List.mem_map_of_mem (fun g => g.field_name) hf'
    rw [lookup_cleanExtraData service ed f.field_name (List.elem_iff.mpr hmem)]
  · unfold itemMissingLine
    constructor
    · intro hnone
      by_cases hc :
          (missingRequiredLabels it2.service (it2.extra_data.getD [])).isEmpty = true
      · exact List.isEmpty_iff.mp hc
      · rw [if_neg hc] at hnone
        cases hnone
    · intro hnil
      rw [if_pos (by rw [hnil]; rfl)]

end PremiumStore
